import Mathlib

/-!
Verification of the session/request orchestration engine of
`app/store/app.ts` (azure-chatgpt-ui).

The TypeScript store is shallowly embedded: the session data model becomes
Lean structures, each store operation becomes a pure function from store
state to store state, and the streaming callbacks become explicit state
transformers on messages.  JavaScript array operations (`slice`, `splice`,
`at`, `concat`) are translated to their `List` counterparts, with
JavaScript's negative-index and clamping behaviour made explicit.
-/

/-- `Message` from `app/store/app.ts`: role/content plus the mutable
`streaming`/`isError` flags.  The optional TS fields `streaming?`,
`isError?`, `id?` default to their falsy values. -/
structure Message where
  role : String
  content : String
  date : String
  streaming : Bool := false
  isError : Bool := false
  id : Nat := 0
deriving Repr, DecidableEq

/-- `ChatStat` aggregate counters. -/
structure ChatStat where
  tokenCount : Nat
  wordCount : Nat
  charCount : Nat
deriving Repr, DecidableEq

/-- `ChatSession` from `app/store/app.ts`. -/
structure ChatSession where
  id : Nat
  topic : String
  sendMemory : Bool
  memoryPrompt : String
  context : List Message
  messages : List Message
  stat : ChatStat
  lastUpdate : String
  lastSummarizeIndex : Nat
deriving Repr, DecidableEq

/-- The model-parameter part of `ChatConfig` (fields the core reads). -/
structure ModelConfig where
  model : String
  temperature : ℚ
  max_tokens : Int
  presence_penalty : ℚ
deriving Repr, DecidableEq

/-- The fields of `ChatConfig` that the orchestration core reads. -/
structure ChatConfig where
  historyMessageCount : Int
  compressMessageLengthThreshold : Int
  sendBotMessages : Bool
  modelConfig : ModelConfig
deriving Repr, DecidableEq

/-- Modelled from the spec: `Locale.Store.DefaultTopic` (the locale files are
not part of the embedded source).  The spec calls it the "default topic"
placeholder; its concrete text is irrelevant to every claim. -/
def DEFAULT_TOPIC : String := "New Conversation"

/-- `createEmptySession` from `app/store/app.ts`; `Date.now()` and the
creation date string are passed in as parameters. -/
def createEmptySession (freshId : Nat) (createDate : String) : ChatSession :=
  { id := freshId
    topic := DEFAULT_TOPIC
    sendMemory := true
    memoryPrompt := ""
    context := []
    messages := []
    stat := { tokenCount := 0, wordCount := 0, charCount := 0 }
    lastUpdate := createDate
    lastSummarizeIndex := 0 }

/-- The store state: the session collection plus the current-index pointer.
The index is an `Int` because `removeSession` can drive it to `-1`. -/
structure ChatStoreState where
  sessions : List ChatSession
  currentSessionIndex : Int
deriving Repr, DecidableEq

/-- `clearSessions`. -/
def clearSessions (freshId : Nat) (freshDate : String) (_st : ChatStoreState) :
    ChatStoreState :=
  { sessions := [createEmptySession freshId freshDate], currentSessionIndex := 0 }

/-- `newSession`: prepend a fresh session and select it. -/
def newSession (freshId : Nat) (freshDate : String) (st : ChatStoreState) :
    ChatStoreState :=
  { sessions := createEmptySession freshId freshDate :: st.sessions
    currentSessionIndex := 0 }

/-- `removeSession(index)`.  With a sole session the collection is replaced by
a fresh empty session; otherwise `splice(index, 1)` removes it (a no-op for an
out-of-range index, as in JS) and the current index is decremented when it
equalled the removed index. -/
def removeSession (freshId : Nat) (freshDate : String) (index : Nat)
    (st : ChatStoreState) : ChatStoreState :=
  if st.sessions.length = 1 then
    { sessions := [createEmptySession freshId freshDate], currentSessionIndex := 0 }
  else
    let sessions := st.sessions.eraseIdx index
    let nextIndex :=
      if st.currentSessionIndex = (index : Int) then st.currentSessionIndex - 1
      else st.currentSessionIndex
    { sessions := sessions, currentSessionIndex := nextIndex }

/-- `moveSession(from, to)`.  JS copies the array, removes the session at
`from` and re-inserts it at `to` (`splice` clamps an over-long insertion index
to the length), then recomputes the current index.  An out-of-range `from`
would make JS insert `undefined` into the array, which a list of sessions
cannot represent; that degenerate case is modelled as leaving the state
unchanged and lies outside every claim (they quantify over valid indices). -/
def moveSession (fromIdx toIdx : Nat) (st : ChatStoreState) : ChatStoreState :=
  match st.sessions[fromIdx]? with
  | none => st
  | some session =>
    let removed := st.sessions.eraseIdx fromIdx
    let newSessions := removed.insertIdx (min toIdx removed.length) session
    let oldIndex := st.currentSessionIndex
    let newIndex := if oldIndex = (fromIdx : Int) then (toIdx : Int) else oldIndex
    let newIndex :=
      if (fromIdx : Int) < oldIndex ∧ oldIndex ≤ (toIdx : Int) then newIndex - 1
      else if oldIndex < (fromIdx : Int) ∧ (toIdx : Int) ≤ oldIndex then newIndex + 1
      else newIndex
    { sessions := newSessions, currentSessionIndex := newIndex }

/-- The index clamping performed by `currentSession()`: an out-of-range index
is replaced by `Math.min(sessions.length - 1, Math.max(0, index))` and
persisted. -/
def clampedIndex (st : ChatStoreState) : Int :=
  if st.currentSessionIndex < 0 ∨ (st.sessions.length : Int) ≤ st.currentSessionIndex then
    min ((st.sessions.length : Int) - 1) (max 0 st.currentSessionIndex)
  else st.currentSessionIndex

/-- Replace the element at a (non-negative, in-range) position; out-of-range
positions leave the list unchanged. -/
def listModify (f : α → α) : List α → Nat → List α
  | [], _ => []
  | a :: l, 0 => f a :: l
  | a :: l, n + 1 => a :: listModify f l n

/-- `updateCurrentSession(updater)`: apply the updater to
`sessions[currentSessionIndex]` and re-publish the collection.  The source
indexes with the raw (unclamped) current index; on an out-of-range index JS
would fault inside the updater, which the embedding renders as "no session is
updated". -/
def updateCurrentSession (f : ChatSession → ChatSession) (st : ChatStoreState) :
    ChatStoreState :=
  if 0 ≤ st.currentSessionIndex then
    { st with sessions := listModify f st.sessions st.currentSessionIndex.toNat }
  else st

/-- The per-session updater passed by `resetSession`: clear `messages` and
`memoryPrompt`, leave every other field (including `lastSummarizeIndex`)
untouched. -/
def resetUpdater (session : ChatSession) : ChatSession :=
  { session with messages := [], memoryPrompt := "" }

/-- `resetSession`. -/
def resetSession (st : ChatStoreState) : ChatStoreState :=
  updateCurrentSession resetUpdater st

/-- `deleteSession` followed by the toast's `Revert` click, on the confirmed
(deletion actually performed) path.  `deleteSession` first reads
`currentSession()` (which clamps and persists the index), captures the clamped
index and whether this was the last session, removes at that index, and the
undo re-inserts the captured session object at
`sessions.slice(0, index) ++ [deleted] ++ sessions.slice(index + isLast)`.
The `none` branch (empty collection) is unreachable under the store's own
non-emptiness invariant. -/
def deleteThenRevert (freshId : Nat) (freshDate : String) (st : ChatStoreState) :
    ChatStoreState :=
  let index := (clampedIndex st).toNat
  match st.sessions[index]? with
  | none => st
  | some deletedSession =>
    let isLastSession := st.sessions.length = 1
    let afterRemove := removeSession freshId freshDate index st
    { afterRemove with
        sessions :=
          afterRemove.sessions.take index ++ [deletedSession] ++
            afterRemove.sessions.drop (index + if isLastSession then 1 else 0) }

/-- The removal step of `deleteSession` alone (used for the non-emptiness
invariant): remove at the clamped current index. -/
def deleteSessionRemove (freshId : Nat) (freshDate : String) (st : ChatStoreState) :
    ChatStoreState :=
  removeSession freshId freshDate (clampedIndex st).toNat st

/-- `countMessages`: total character count of a message list
(`reduce((pre, cur) => pre + cur.content.length, 0)`). -/
def countMessages (msgs : List Message) : Nat :=
  msgs.foldl (fun pre cur => pre + cur.content.length) 0

/-- `getMemoryPrompt`: a synthesized system message wrapping the session's
memory prompt in the fixed locale template (`Locale.Store.Prompt.History`,
passed in as `historyTemplate` since the locale files are outside the embedded
source). -/
def getMemoryPrompt (historyTemplate : String → String) (session : ChatSession) :
    Message :=
  { role := "system", content := historyTemplate session.memoryPrompt, date := "" }

/-- The trailing-window slice inside `getMessagesWithMemory`: filter out
`isError` messages, then
`messages.slice(Math.max(0, n - config.historyMessageCount))`. -/
def contextWindowSlice (session : ChatSession) (config : ChatConfig) :
    List Message :=
  let messages := session.messages.filter fun msg => !msg.isError
  let n : Int := (messages.length : Int)
  messages.drop (max 0 (n - config.historyMessageCount)).toNat

/-- `getMessagesWithMemory`.  The fixed few-shot example block (a large string
constant whose contents no claim depends on) and the optional
`NEXT_PUBLIC_SYSTEM_PROMPT` environment override are passed in as parameters;
the trailing window over the session's own messages is `contextWindowSlice`. -/
def getMessagesWithMemory (exampleMessages : List Message)
    (systemPrompt : Option String) (historyTemplate : String → String)
    (session : ChatSession) (config : ChatConfig) : List Message :=
  let context := session.context
  let context :=
    if session.sendMemory ∧ 0 < session.memoryPrompt.length then
      context ++ [getMemoryPrompt historyTemplate session]
    else context
  let recentMessages := context ++ exampleMessages ++ contextWindowSlice session config
  match systemPrompt with
  | some p => ({ role := "system", content := p, date := "" } : Message) :: recentMessages
  | none => recentMessages

/-- The character count `summarizeSession` computes over the unsummarized
slice: `countMessages(session.messages.slice(session.lastSummarizeIndex))`. -/
def summarizeCharCount (session : ChatSession) : Nat :=
  countMessages (session.messages.drop session.lastSummarizeIndex)

/-- The memory-compression trigger of `summarizeSession`:
`historyMsgLength > config.compressMessageLengthThreshold` (the length is
computed before any truncation to the history window). -/
def shouldCompress (session : ChatSession) (config : ChatConfig) : Bool :=
  config.compressMessageLengthThreshold < (summarizeCharCount session : Int)

/-- The `onMessage` callback of the summarize request: overwrite
`memoryPrompt` with the streamed text, and on the terminal event set
`lastSummarizeIndex` to the message count captured when `summarizeSession`
ran. -/
def summarizeOnMessage (message : String) (done : Bool) (capturedLen : Nat)
    (session : ChatSession) : ChatSession :=
  let session := { session with memoryPrompt := message }
  if done then { session with lastSummarizeIndex := capturedLen } else session

/-- One partial/terminal event of a streaming response. -/
structure StreamEvent where
  content : String
  done : Bool
deriving Repr, DecidableEq

/-- The `onMessage` callback inside `onUserInput`: a non-terminal event
overwrites the assistant message's `content` with the delivered text; the
terminal event additionally clears `streaming`. -/
def onMessage (ev : StreamEvent) (botMessage : Message) : Message :=
  if ev.done then { botMessage with streaming := false, content := ev.content }
  else { botMessage with content := ev.content }

/-- Apply a whole stream of events to the assistant message in order. -/
def runStream (botMessage : Message) (events : List StreamEvent) : Message :=
  events.foldl (fun m ev => onMessage ev m) botMessage

/-- The defaults of `createMessage` (identity and date supplied by the
caller's clock). -/
def createMessageDefaults (freshId : Nat) (date : String) : Message :=
  { id := freshId, date := date, role := "user", content := "" }

/-- The placeholder assistant message appended by `onUserInput`:
`createMessage({ role: "assistant", streaming: true })`. -/
def botPlaceholderMessage (freshId : Nat) (date : String) : Message :=
  { createMessageDefaults freshId date with role := "assistant", streaming := true }

/-- The `onError` callback inside `onUserInput`.  The fixed locale strings
`Locale.Error.Unauthorized` and `Locale.Store.Error` are parameters
(`unauthorizedMsg`, `storeErrorMsg`); `statusCode` is the transport's optional
status.  Returns the updated (user, assistant) pair. -/
def onError (unauthorizedMsg storeErrorMsg : String) (statusCode : Option Int)
    (userMessage botMessage : Message) : Message × Message :=
  let botMessage :=
    if statusCode = some 401 then { botMessage with content := unauthorizedMsg }
    else { botMessage with content := botMessage.content ++ "\n\n" ++ storeErrorMsg }
  let botMessage := { botMessage with streaming := false, isError := true }
  let userMessage := { userMessage with isError := true }
  (userMessage, botMessage)

/-- A JavaScript number argument as the validators see it: either a genuine
number or NaN / a non-number value (both of which `limitNumber` treats
alike). -/
inductive JSNumber where
  | nan : JSNumber
  | num (val : ℚ) : JSNumber
deriving Repr, DecidableEq

/-- `limitNumber(x, min, max, defaultValue)`: NaN or a non-number yields the
default, otherwise `Math.min(max, Math.max(min, x))`. -/
def limitNumber (x : JSNumber) (lo hi defaultValue : ℚ) : ℚ :=
  match x with
  | .nan => defaultValue
  | .num v => min hi (max lo v)

/-- One entry of `ALL_MODELS`. -/
structure ModelEntry where
  name : String
  available : Bool
deriving Repr, DecidableEq

/-- `ENABLE_GPT4`. -/
def ENABLE_GPT4 : Bool := true

/-- `ALL_MODELS`. -/
def ALL_MODELS : List ModelEntry :=
  [⟨"gpt-4", ENABLE_GPT4⟩, ⟨"gpt-4-0314", ENABLE_GPT4⟩, ⟨"gpt-4-32k", ENABLE_GPT4⟩,
   ⟨"gpt-4-32k-0314", ENABLE_GPT4⟩, ⟨"gpt-3.5-turbo", true⟩,
   ⟨"gpt-3.5-turbo-0301", true⟩]

/-- `limitModel(name)`: keep a known-and-available name, otherwise fall back
to `ALL_MODELS[4].name`. -/
def limitModel (name : String) : String :=
  if ALL_MODELS.any (fun m => m.name == name && m.available) then name
  else (ALL_MODELS.get ⟨4, by decide⟩).name

/-- `ModalConfigValidator.model`. -/
def ModalConfigValidator.model (x : String) : String := limitModel x

/-- `ModalConfigValidator.max_tokens`. -/
def ModalConfigValidator.max_tokens (x : JSNumber) : ℚ := limitNumber x 0 32000 2000

/-- `ModalConfigValidator.presence_penalty`. -/
def ModalConfigValidator.presence_penalty (x : JSNumber) : ℚ :=
  limitNumber x (-2) 2 0

/-- `ModalConfigValidator.temperature`. -/
def ModalConfigValidator.temperature (x : JSNumber) : ℚ := limitNumber x 0 2 1

/-- JavaScript `Array.prototype.at`: a negative index counts from the end;
anything still out of range yields no element. -/
def jsAt (l : List α) (i : Int) : Option α :=
  let j : Int := if i < 0 then (l.length : Int) + i else i
  if 0 ≤ j then l[j.toNat]? else none

/-- `updateMessage(sessionIndex, messageIndex, updater)`: resolve
`sessions.at(sessionIndex)`, then `session?.messages`, then
`messages?.at(messageIndex)`, hand that (possibly absent) message to the
updater, and re-publish the unchanged collection.  The embedding returns the
message the updater receives together with the resulting store. -/
def updateMessage (st : ChatStoreState) (sessionIndex messageIndex : Int) :
    Option Message × ChatStoreState :=
  let sessions := st.sessions
  let session := jsAt sessions sessionIndex
  let messages := session.map ChatSession.messages
  let targetMessage := messages.bind fun msgs => jsAt msgs messageIndex
  (targetMessage, { st with sessions := sessions })

/-! ### Helper lemmas -/

/-- Folding the character count from any accumulator. -/
theorem countMessages_go (msgs : List Message) (a : Nat) :
    msgs.foldl (fun pre cur => pre + cur.content.length) a = a + countMessages msgs := by
  induction msgs generalizing a with
  | nil => simp [countMessages]
  | cons m l ih =>
    have h2 : countMessages (m :: l) = m.content.length + countMessages l := by
      simp only [countMessages, List.foldl_cons, Nat.zero_add]
      rw [ih m.content.length, ih 0]
      omega
    rw [List.foldl_cons, ih, h2]
    omega

/-- `countMessages` on a cons cell. -/
theorem countMessages_cons (m : Message) (l : List Message) :
    countMessages (m :: l) = m.content.length + countMessages l := by
  simp only [countMessages, List.foldl_cons]
  rw [countMessages_go l, countMessages_go l]
  omega

/-- Reading below the insertion point of `insertIdx`. -/
theorem insertIdx_getElem?_lt (l : List α) (x : α) (n k : Nat) (hn : k < n)
    (hk : k < l.length) : (l.insertIdx n x)[k]? = l[k]? := by
  have hk' : k < (l.insertIdx n x).length :=
    hk.trans_le (List.length_le_length_insertIdx _ _ _)
  rw [List.getElem?_eq_getElem hk', List.getElem?_eq_getElem hk,
    List.getElem_insertIdx_of_lt l x n k hn hk]

/-- Reading the inserted element of `insertIdx`. -/
theorem insertIdx_getElem?_at (l : List α) (x : α) (n : Nat) (hn : n ≤ l.length) :
    (l.insertIdx n x)[n]? = some x := by
  have hn' : n < (l.insertIdx n x).length := by
    rw [List.length_insertIdx n l hn]
    omega
  rw [List.getElem?_eq_getElem hn', List.getElem_insertIdx_self l x n hn]

/-- Reading above the insertion point of `insertIdx`. -/
theorem insertIdx_getElem?_shift (l : List α) (x : α) (n k : Nat)
    (hk : n + k < l.length) : (l.insertIdx n x)[n + k + 1]? = l[n + k]? := by
  have h1 : n + k + 1 < (l.insertIdx n x).length := by
    rw [List.length_insertIdx n l (by omega)]
    omega
  rw [List.getElem?_eq_getElem h1, List.getElem?_eq_getElem hk,
    List.getElem_insertIdx_add_succ l x n k hk]

/-- Removing index `i` and re-inserting the removed element at `i` restores
the original list. -/
theorem eraseIdx_reassemble (l : List α) (i : Nat) (hi : i < l.length) :
    (l.eraseIdx i).take i ++ [l.get ⟨i, hi⟩] ++ (l.eraseIdx i).drop i = l := by
  have hlen : (l.take i).length = i := by
    rw [List.length_take]
    omega
  rw [List.eraseIdx_eq_take_drop_succ, List.take_append_eq_append_take,
    List.drop_append_eq_append_drop, hlen, Nat.sub_self, List.take_zero,
    List.drop_zero, List.append_nil, List.take_take, Nat.min_self,
    List.drop_eq_nil_of_le (le_of_eq hlen), List.nil_append, List.get_eq_getElem,
    List.append_assoc, List.singleton_append, ← List.drop_eq_getElem_cons hi,
    List.take_append_drop]

/-- Out-of-range `jsAt` reads (too large, or too negative) yield nothing. -/
theorem jsAt_eq_none (l : List α) (i : Int)
    (h : (l.length : Int) ≤ i ∨ i + (l.length : Int) < 0) : jsAt l i = none := by
  simp only [jsAt]
  rcases h with h | h
  · rw [if_neg (by omega : ¬ i < 0), if_pos (by omega : (0 : Int) ≤ i)]
    exact List.getElem?_eq_none (by omega)
  · rw [if_pos (by omega : i < 0), if_neg (by omega : ¬ (0 : Int) ≤ (l.length : Int) + i)]

/-- A negative `jsAt` index resolves from the end of the list. -/
theorem jsAt_neg (l : List α) (k : Nat) (h : k < l.length) :
    jsAt l (-(1 : Int) - k) = l[l.length - 1 - k]? := by
  simp only [jsAt]
  rw [if_pos (by omega : -(1 : Int) - k < 0),
    if_pos (by omega : (0 : Int) ≤ (l.length : Int) + (-(1 : Int) - k))]
  have : ((l.length : Int) + (-(1 : Int) - k)).toNat = l.length - 1 - k := by omega
  rw [this]

/-- With a non-negative `historyMessageCount = k`, the trailing window is the
last `min k m` entries of the error-filtered message list (`m` of them), in
original order (a suffix obtained by `drop (m - k)`). -/
theorem contextWindowSlice_nonneg (session : ChatSession) (config : ChatConfig)
    (k : Nat) (h : config.historyMessageCount = (k : Int)) :
    (contextWindowSlice session config).length =
      min k (session.messages.filter fun m => !m.isError).length ∧
    contextWindowSlice session config =
      (session.messages.filter fun m => !m.isError).drop
        ((session.messages.filter fun m => !m.isError).length - k) := by
  simp only [contextWindowSlice, h]
  have hidx : (max 0 (((session.messages.filter fun m => !m.isError).length : Int) - k)).toNat =
      (session.messages.filter fun m => !m.isError).length - k := by omega
  rw [hidx]
  constructor
  · rw [List.length_drop]
    omega
  · rfl

/-- With `historyMessageCount = -1` the trailing window is always empty: the
slice start `Math.max(0, n - (-1)) = n + 1` lies past the end of the filtered
list.  (The config's own comment says `-1 means all`.) -/
theorem contextWindowSlice_neg_one (session : ChatSession) (config : ChatConfig)
    (h : config.historyMessageCount = -1) : contextWindowSlice session config = [] := by
  simp only [contextWindowSlice, h]
  have hidx : (max 0 (((session.messages.filter fun m => !m.isError).length : Int) - (-1))).toNat =
      (session.messages.filter fun m => !m.isError).length + 1 := by omega
  rw [hidx]
  exact List.drop_eq_nil_of_le (by omega)

/-! ### Concrete data for witnesses and counterexamples -/

/-- An all-zero stat record. -/
def demoStat : ChatStat := { tokenCount := 0, wordCount := 0, charCount := 0 }

/-- A plain non-error user message. -/
def demoMessage : Message := { role := "user", content := "hi", date := "d" }

/-- A minimal session with the given id and otherwise default-empty fields. -/
def demoSession (n : Nat) : ChatSession :=
  { id := n, topic := DEFAULT_TOPIC, sendMemory := true, memoryPrompt := "",
    context := [], messages := [], stat := demoStat, lastUpdate := "d",
    lastSummarizeIndex := 0 }

/-- A default model configuration mirroring `DEFAULT_CONFIG.modelConfig`. -/
def demoModelConfig : ModelConfig :=
  { model := "gpt-3.5-turbo", temperature := 7 / 10, max_tokens := 4000,
    presence_penalty := 0 }

/-- A session holding one ordinary message, for exercising the window. -/
def sessionC1 : ChatSession := { demoSession 1 with messages := [demoMessage] }

/-- A config with `historyMessageCount = -1` ("-1 means all" per the source's
comment). -/
def configC1 : ChatConfig :=
  { historyMessageCount := -1, compressMessageLengthThreshold := 1000,
    sendBotMessages := true, modelConfig := demoModelConfig }

/-! ### Claim theorems -/

/-- Claim C1 (code bug evidence): the Context Assembler evaluated at
`historyMessageCount = -1` on a session with one non-error message.  The claim
(and the source's own comment `-1 means all`) says the window is the entire
filtered list; the code computes `messages.slice(n + 1)`, i.e. the empty list,
so the whole assembled context is empty here (no pinned context, no memory,
no examples, no system override). -/
theorem C1_neg_one_window_is_empty :
    getMessagesWithMemory [] none (fun s => s) sessionC1 configC1 = [] ∧
    sessionC1.messages.filter (fun m => !m.isError) = [demoMessage] := by
  constructor
  · rfl
  · rfl

/-- Claim C4: each non-terminal partial-text callback overwrites the assistant
message's content with the delivered cumulative text (it does not append), the
terminal callback clears `streaming` and sets the final text, and the example
stream "A", "AB", terminal "ABC" leaves `content = "ABC"`,
`streaming = false`. -/
theorem C4_streaming_overwrite :
    (∀ (bot : Message) (c : String),
        onMessage { content := c, done := false } bot = { bot with content := c }) ∧
    (∀ (bot : Message) (c : String),
        onMessage { content := c, done := true } bot =
          { bot with streaming := false, content := c }) ∧
    (runStream (botPlaceholderMessage 1 "d")
        [{ content := "A", done := false }, { content := "AB", done := false },
         { content := "ABC", done := true }]).content = "ABC" ∧
    (runStream (botPlaceholderMessage 1 "d")
        [{ content := "A", done := false }, { content := "AB", done := false },
         { content := "ABC", done := true }]).streaming = false := by
  exact ⟨fun bot c => rfl, fun bot c => rfl, rfl, rfl⟩

/-- Claim C5: on a transport error, status 401 replaces the assistant content
with the fixed unauthorized notice and any other status appends the fixed
error suffix to the partial content; in both cases the assistant message stops
streaming and both messages are flagged `isError`. -/
theorem C5_onError_flags :
    ∀ (unauthorizedMsg storeErrorMsg : String) (statusCode : Option Int)
      (userMessage botMessage : Message),
      onError unauthorizedMsg storeErrorMsg statusCode userMessage botMessage =
        ({ userMessage with isError := true },
         { botMessage with
             content :=
               if statusCode = some 401 then unauthorizedMsg
               else botMessage.content ++ "\n\n" ++ storeErrorMsg,
             streaming := false, isError := true }) := by
  intro ua se sc u b
  by_cases h : sc = some 401 <;> simp [onError, h]

/-- Clamping characterization of `limitNumber` on genuine numbers. -/
theorem limitNumber_num_eq (v lo hi d : ℚ) (h : lo ≤ hi) :
    limitNumber (.num v) lo hi d = if v < lo then lo else if hi < v then hi else v := by
  simp only [limitNumber]
  rcases lt_or_le v lo with h1 | h1
  · rw [if_pos h1, max_eq_left h1.le, min_eq_right h]
  · rw [if_neg (not_lt.mpr h1), max_eq_right h1]
    rcases lt_or_le hi v with h2 | h2
    · rw [if_pos h2, min_eq_left h2.le]
    · rw [if_neg (not_lt.mpr h2), min_eq_right h2]

/-- `limitNumber` output stays within the bounds on genuine numbers. -/
theorem limitNumber_num_bounds (v lo hi d : ℚ) (h : lo ≤ hi) :
    lo ≤ limitNumber (.num v) lo hi d ∧ limitNumber (.num v) lo hi d ≤ hi :=
  ⟨le_min h (le_max_left lo v), min_le_left hi _⟩

/-- Claim C9: the config validators clamp numeric inputs to their bounds
(`temperature` to [0,2], `max_tokens` to [0,32000], `presence_penalty` to
[-2,2], in-range inputs unchanged, out-of-range to the nearest bound, e.g.
`temperature(-5) = 0`), map NaN / non-numeric input to the named default
(e.g. `temperature(NaN) = 1`), and `model` keeps a known-available name and
otherwise falls back to the fixed default model. -/
theorem C9_config_validators :
    (∀ v : ℚ, ModalConfigValidator.temperature (.num v) =
        if v < 0 then 0 else if 2 < v then 2 else v) ∧
    (∀ v : ℚ, 0 ≤ ModalConfigValidator.temperature (.num v) ∧
        ModalConfigValidator.temperature (.num v) ≤ 2) ∧
    ModalConfigValidator.temperature .nan = 1 ∧
    ModalConfigValidator.temperature (.num (-5)) = 0 ∧
    (∀ v : ℚ, ModalConfigValidator.max_tokens (.num v) =
        if v < 0 then 0 else if 32000 < v then 32000 else v) ∧
    (∀ v : ℚ, 0 ≤ ModalConfigValidator.max_tokens (.num v) ∧
        ModalConfigValidator.max_tokens (.num v) ≤ 32000) ∧
    ModalConfigValidator.max_tokens .nan = 2000 ∧
    (∀ v : ℚ, ModalConfigValidator.presence_penalty (.num v) =
        if v < -2 then -2 else if 2 < v then 2 else v) ∧
    (∀ v : ℚ, -2 ≤ ModalConfigValidator.presence_penalty (.num v) ∧
        ModalConfigValidator.presence_penalty (.num v) ≤ 2) ∧
    ModalConfigValidator.presence_penalty .nan = 0 ∧
    (∀ name : String, ModalConfigValidator.model name =
        if ALL_MODELS.any (fun m => m.name == name && m.available) then name
        else "gpt-3.5-turbo") := by
  refine ⟨fun v => ?_, fun v => ?_, rfl, ?_, fun v => ?_, fun v => ?_, rfl,
    fun v => ?_, fun v => ?_, rfl, fun name => rfl⟩
  · exact limitNumber_num_eq v 0 2 1 (by norm_num)
  · exact limitNumber_num_bounds v 0 2 1 (by norm_num)
  · rw [ModalConfigValidator.temperature, limitNumber_num_eq (-5) 0 2 1 (by norm_num)]
    norm_num
  · exact limitNumber_num_eq v 0 32000 2000 (by norm_num)
  · exact limitNumber_num_bounds v 0 32000 2000 (by norm_num)
  · exact limitNumber_num_eq v (-2) 2 0 (by norm_num)
  · exact limitNumber_num_bounds v (-2) 2 0 (by norm_num)

/-- A one-session store for exercising `updateMessage` at its boundaries. -/
def storeC10 : ChatStoreState :=
  { sessions := [demoSession 10], currentSessionIndex := 0 }

/-- Claim C10: `updateMessage` never modifies the collection itself, hands the
updater no message whenever either index is out of range (too large or too
negative), and resolves negative indices from the end of the array. -/
theorem C10_updateMessage_safe :
    (∀ (st : ChatStoreState) (i j : Int), (updateMessage st i j).2 = st) ∧
    (∀ (st : ChatStoreState) (i j : Int),
        ((st.sessions.length : Int) ≤ i ∨ i + (st.sessions.length : Int) < 0) →
          (updateMessage st i j).1 = none) ∧
    (∀ (st : ChatStoreState) (i j : Int) (s : ChatSession),
        jsAt st.sessions i = some s →
        ((s.messages.length : Int) ≤ j ∨ j + (s.messages.length : Int) < 0) →
          (updateMessage st i j).1 = none) ∧
    (∀ (st : ChatStoreState) (k : Nat), k < st.sessions.length →
        jsAt st.sessions (-(1 : Int) - k) =
          st.sessions[st.sessions.length - 1 - k]?) := by
  refine ⟨fun st i j => rfl, fun st i j h => ?_, fun st i j s hs hj => ?_,
    fun st k hk => jsAt_neg st.sessions k hk⟩
  · simp [updateMessage, jsAt_eq_none st.sessions i h]
  · simp [updateMessage, hs, jsAt_eq_none s.messages j hj]

/-- Claim C10 witness: boundary behaviour at a concrete one-session store
(session index past the end, message index past the end, and a negative
index resolving from the end). -/
theorem C10_witness :
    (updateMessage storeC10 5 0).2 = storeC10 ∧
    (updateMessage storeC10 5 0).1 = none ∧
    (updateMessage storeC10 0 7).1 = none ∧
    jsAt storeC10.sessions (-(1 : Int) - 0) =
      storeC10.sessions[storeC10.sessions.length - 1 - 0]? :=
  ⟨C10_updateMessage_safe.1 storeC10 5 0,
   C10_updateMessage_safe.2.1 storeC10 5 0 (Or.inl (by decide)),
   C10_updateMessage_safe.2.2.1 storeC10 0 7 (demoSession 10) (by decide)
     (Or.inl (by decide)),
   C10_updateMessage_safe.2.2.2 storeC10 0 (by decide)⟩

/-- A session whose whole (single-message) history has already been folded
into memory: `lastSummarizeIndex = messages.length = 1`.  Reachable via the
summarize completion callback. -/
def sessionC3 : ChatSession :=
  { demoSession 3 with messages := [demoMessage], lastSummarizeIndex := 1 }

/-- The store holding `sessionC3` as the current session. -/
def storeC3 : ChatStoreState := { sessions := [sessionC3], currentSessionIndex := 0 }

/-- Claim C3 counterexample: after `resetSession` on a session with
`lastSummarizeIndex = 1`, the messages are cleared but `lastSummarizeIndex`
is still `1 > 0 = messages.length`, so the claimed invariant fails. -/
theorem C3_counterexample :
    ¬ (∀ s ∈ (resetSession storeC3).sessions,
        s.lastSummarizeIndex ≤ s.messages.length) := by
  decide

/-- Claim C3 (amended): the completion callback of `summarizeSession`
preserves `lastSummarizeIndex ≤ messages.length` (it sets the index to the
captured message count and leaves the messages untouched); `resetSession`
clears `messages` but leaves `lastSummarizeIndex` unchanged, so after
`resetSession` the invariant holds exactly when `lastSummarizeIndex` was
already `0`.  (The lower bound `0 ≤ lastSummarizeIndex` is inherent: the
field is only ever assigned `0` or a message count.) -/
theorem C3_amended_invariant :
    (∀ (session : ChatSession) (message : String),
        (summarizeOnMessage message true session.messages.length session).lastSummarizeIndex ≤
          (summarizeOnMessage message true session.messages.length session).messages.length) ∧
    (∀ session : ChatSession,
        (resetUpdater session).lastSummarizeIndex = session.lastSummarizeIndex ∧
        (resetUpdater session).messages = []) ∧
    (∀ session : ChatSession,
        ((resetUpdater session).lastSummarizeIndex ≤ (resetUpdater session).messages.length ↔
          session.lastSummarizeIndex = 0)) := by
  refine ⟨fun session message => ?_, fun session => ⟨rfl, rfl⟩, fun session => ?_⟩
  · simp [summarizeOnMessage]
  · simp [resetUpdater]

/-- An error-flagged message whose single character tips the compression
trigger. -/
def errorMessage : Message :=
  { role := "user", content := "x", date := "d", isError := true }

/-- A session whose unsummarized slice is exactly one `isError` message. -/
def sessionC6err : ChatSession := { demoSession 6 with messages := [errorMessage] }

/-- The same session with the error message removed (the error-filtered
variant). -/
def sessionC6clean : ChatSession := demoSession 6

/-- A config whose compression threshold the error message's single character
exceeds. -/
def configC6 : ChatConfig :=
  { historyMessageCount := 4, compressMessageLengthThreshold := 0,
    sendBotMessages := true, modelConfig := demoModelConfig }

/-- Claim C6 counterexample: `summarizeSession`'s character count is taken
over the raw unsummarized slice, so an `isError` message flips the
compression-trigger decision — with the error message present the trigger
fires, with it removed it does not, refuting "the trigger decision is
unchanged by the presence of isError-flagged messages". -/
theorem C6_counterexample :
    shouldCompress sessionC6err configC6 = true ∧
    shouldCompress sessionC6clean configC6 = false ∧
    sessionC6clean.messages = sessionC6err.messages.filter (fun m => !m.isError) ∧
    sessionC6clean.lastSummarizeIndex = sessionC6err.lastSummarizeIndex := by
  decide

/-- Claim C6 (amended): messages flagged `isError` are excluded from the
transcript window assembled by `getMessagesWithMemory` (no window entry is
error-flagged), but the character count `summarizeSession` compares against
`compressMessageLengthThreshold` is computed by `countMessages` over the raw
slice, which decomposes as the count of the non-error messages plus the count
of the error-flagged ones — so error messages do contribute to the
summarization trigger. -/
theorem C6_amended_error_exclusion :
    (∀ (session : ChatSession) (config : ChatConfig),
        (contextWindowSlice session config).all (fun m => !m.isError) = true) ∧
    (∀ msgs : List Message,
        countMessages msgs =
          countMessages (msgs.filter fun m => !m.isError) +
            countMessages (msgs.filter fun m => m.isError)) := by
  constructor
  · intro session config
    rw [List.all_eq_true]
    intro m hm
    simp only [contextWindowSlice] at hm
    have hmem : m ∈ session.messages.filter fun msg => !msg.isError :=
      List.mem_of_mem_drop hm
    exact (List.mem_filter.mp hmem).2
  · intro msgs
    induction msgs with
    | nil => rfl
    | cons m l ih =>
      by_cases h : m.isError = true <;>
        simp [List.filter_cons, h, countMessages_cons, ih] <;> omega

/-- The clamped current index is a valid position whenever the collection is
non-empty. -/
theorem clampedIndex_toNat_lt (st : ChatStoreState) (h : 1 ≤ st.sessions.length) :
    (clampedIndex st).toNat < st.sessions.length := by
  unfold clampedIndex
  split
  · simp only [min_def, max_def]
    split <;> split <;> omega
  · rename_i hcond
    push_neg at hcond
    omega

/-- Claim C2: every structural store operation (`newSession`, `removeSession`,
`moveSession`, `clearSessions`, the removal step of `deleteSession`, and its
undo) preserves `sessions.length ≥ 1`; and `removeSession` on a sole session
yields exactly one fresh empty session (no messages, default topic, empty
memory prompt) with current index `0`. -/
theorem C2_collection_nonempty :
    (∀ (fid : Nat) (fdate : String) (st : ChatStoreState),
        1 ≤ st.sessions.length → 1 ≤ (newSession fid fdate st).sessions.length) ∧
    (∀ (fid : Nat) (fdate : String) (idx : Nat) (st : ChatStoreState),
        1 ≤ st.sessions.length → 1 ≤ (removeSession fid fdate idx st).sessions.length) ∧
    (∀ (a b : Nat) (st : ChatStoreState),
        1 ≤ st.sessions.length → 1 ≤ (moveSession a b st).sessions.length) ∧
    (∀ (fid : Nat) (fdate : String) (st : ChatStoreState),
        1 ≤ (clearSessions fid fdate st).sessions.length) ∧
    (∀ (fid : Nat) (fdate : String) (st : ChatStoreState),
        1 ≤ st.sessions.length → 1 ≤ (deleteSessionRemove fid fdate st).sessions.length) ∧
    (∀ (fid : Nat) (fdate : String) (st : ChatStoreState),
        1 ≤ st.sessions.length → 1 ≤ (deleteThenRevert fid fdate st).sessions.length) ∧
    (∀ (fid : Nat) (fdate : String) (idx : Nat) (st : ChatStoreState),
        st.sessions.length = 1 →
          removeSession fid fdate idx st =
            { sessions := [createEmptySession fid fdate], currentSessionIndex := 0 } ∧
          (createEmptySession fid fdate).messages = [] ∧
          (createEmptySession fid fdate).topic = DEFAULT_TOPIC ∧
          (createEmptySession fid fdate).memoryPrompt = "") := by
  have hremove : ∀ (fid : Nat) (fdate : String) (idx : Nat) (st : ChatStoreState),
      1 ≤ st.sessions.length → 1 ≤ (removeSession fid fdate idx st).sessions.length := by
    intro fid fdate idx st h
    unfold removeSession
    split
    · simp
    · rename_i hne
      have := List.le_length_eraseIdx st.sessions idx
      simp only []
      omega
  refine ⟨fun fid fdate st h => by simp [newSession], hremove,
    fun a b st h => ?_, fun fid fdate st => by simp [clearSessions],
    fun fid fdate st h => hremove fid fdate _ st h,
    fun fid fdate st h => ?_, fun fid fdate idx st h => ⟨?_, rfl, rfl, rfl⟩⟩
  · unfold moveSession
    rcases hget : st.sessions[a]? with _ | session
    · exact h
    · simp only []
      rw [List.length_insertIdx _ _ (min_le_right _ _)]
      omega
  · simp only [deleteThenRevert]
    rcases hget : st.sessions[(clampedIndex st).toNat]? with _ | deleted
    · simpa [hget] using h
    · simp only [hget, List.length_append, List.length_cons]
      omega
  · rw [removeSession, if_pos h]

/-- A concrete one-session store for the C2 witness. -/
def storeC2 : ChatStoreState := { sessions := [demoSession 2], currentSessionIndex := 0 }

/-- Claim C2 witness: the non-emptiness invariant and the sole-session
replacement, instantiated at a concrete one-session store. -/
theorem C2_witness :
    1 ≤ (newSession 1 "d" storeC2).sessions.length ∧
    1 ≤ (removeSession 1 "d" 0 storeC2).sessions.length ∧
    1 ≤ (moveSession 0 0 storeC2).sessions.length ∧
    1 ≤ (clearSessions 1 "d" storeC2).sessions.length ∧
    1 ≤ (deleteSessionRemove 1 "d" storeC2).sessions.length ∧
    1 ≤ (deleteThenRevert 1 "d" storeC2).sessions.length ∧
    removeSession 1 "d" 0 storeC2 =
      { sessions := [createEmptySession 1 "d"], currentSessionIndex := 0 } :=
  ⟨C2_collection_nonempty.1 1 "d" storeC2 (by decide),
   C2_collection_nonempty.2.1 1 "d" 0 storeC2 (by decide),
   C2_collection_nonempty.2.2.1 0 0 storeC2 (by decide),
   C2_collection_nonempty.2.2.2.1 1 "d" storeC2,
   C2_collection_nonempty.2.2.2.2.1 1 "d" storeC2 (by decide),
   C2_collection_nonempty.2.2.2.2.2.1 1 "d" storeC2 (by decide),
   (C2_collection_nonempty.2.2.2.2.2.2 1 "d" 0 storeC2 (by decide)).1⟩

/-- Claim C8: deleting the session at the (clamped) current index and then
invoking the undo affordance, with no other removal in between, restores a
session collection equal to the pre-delete collection — the removed session
object is re-inserted at its original index.  This covers both the
many-session case and the sole-session case (where the deletion had replaced
the collection by a fresh empty session). -/
theorem C8_delete_undo_restores (fid : Nat) (fdate : String) (st : ChatStoreState)
    (h : 1 ≤ st.sessions.length) :
    (deleteThenRevert fid fdate st).sessions = st.sessions := by
  have hidx : (clampedIndex st).toNat < st.sessions.length := clampedIndex_toNat_lt st h
  obtain ⟨deleted, hget⟩ : ∃ d, st.sessions[(clampedIndex st).toNat]? = some d :=
    ⟨_, List.getElem?_eq_getElem hidx⟩
  have hdel := Option.some.inj ((List.getElem?_eq_getElem hidx).symm.trans hget)
  simp only [deleteThenRevert, hget]
  by_cases hone : st.sessions.length = 1
  · have h0 : (clampedIndex st).toNat = 0 := by omega
    rcases List.length_eq_one.mp hone with ⟨a, ha⟩
    rw [h0] at hget ⊢
    rw [ha] at hget ⊢
    simp only [List.getElem?_cons_zero, Option.some.injEq] at hget
    subst hget
    simp [removeSession, ha]
  · simp only [removeSession, if_neg hone, Nat.add_zero]
    rw [← hdel]
    have hre := eraseIdx_reassemble st.sessions (clampedIndex st).toNat hidx
    rw [List.get_eq_getElem] at hre
    exact hre

/-- A two-session store for the C8 witness. -/
def storeC8 : ChatStoreState :=
  { sessions := [demoSession 81, demoSession 82], currentSessionIndex := 0 }

/-- Claim C8 witness: delete-then-undo at a concrete two-session store leaves
the collection unchanged. -/
theorem C8_witness :
    (deleteThenRevert 9 "d" storeC8).sessions = storeC8.sessions :=
  C8_delete_undo_restores 9 "d" storeC8 (by decide)

/-- Claim C7: for every valid `fromIdx`, `toIdx` and current index `i`,
after `moveSession fromIdx toIdx` the recomputed current index is
non-negative and the session found there is exactly the session that sat at
index `i` before the move — the move preserves the identity of the current
session however the surrounding indices shift. -/
theorem C7_moveSession_preserves_current (ss : List ChatSession)
    (fromIdx toIdx i : Nat) (hf : fromIdx < ss.length) (ht : toIdx < ss.length)
    (hi : i < ss.length) :
    0 ≤ (moveSession fromIdx toIdx ⟨ss, (i : Int)⟩).currentSessionIndex ∧
    (moveSession fromIdx toIdx ⟨ss, (i : Int)⟩).sessions[
      (moveSession fromIdx toIdx ⟨ss, (i : Int)⟩).currentSessionIndex.toNat]? =
      ss[i]? := by
  have hs : ss[fromIdx]? = some ss[fromIdx] := List.getElem?_eq_getElem hf
  have hrem : (ss.eraseIdx fromIdx).length = ss.length - 1 :=
    List.length_eraseIdx_of_lt hf
  have hminlen : min toIdx (ss.eraseIdx fromIdx).length = toIdx :=
    min_eq_left (by omega)
  simp only [moveSession, hs, hminlen]
  split_ifs with c1 c0a c2 c0b c0c
  · exfalso
    omega
  · -- fromIdx < i and i ≤ toIdx: the removal shifts the session down by one
    obtain ⟨c1a, c1b⟩ := c1
    refine ⟨by omega, ?_⟩
    have e : ((i : Int) - 1).toNat = i - 1 := by omega
    rw [e, insertIdx_getElem?_lt _ _ toIdx (i - 1) (by omega) (by omega),
      List.getElem?_eraseIdx_of_ge _ _ _ (by omega)]
    congr 1
    omega
  · exfalso
    omega
  · -- i < fromIdx and toIdx ≤ i: the insertion shifts the session up by one
    obtain ⟨c2a, c2b⟩ := c2
    refine ⟨by omega, ?_⟩
    have e : ((i : Int) + 1).toNat = i + 1 := by omega
    rw [e, (show i + 1 = toIdx + (i - toIdx) + 1 by omega),
      insertIdx_getElem?_shift _ _ toIdx (i - toIdx) (by omega),
      (show toIdx + (i - toIdx) = i by omega),
      List.getElem?_eraseIdx_of_lt _ _ _ (by omega)]
  · -- i = fromIdx: the moved session itself lands at toIdx
    refine ⟨Int.natCast_nonneg toIdx, ?_⟩
    have hif : i = fromIdx := by omega
    subst hif
    have e : ((toIdx : Int)).toNat = toIdx := rfl
    rw [e, insertIdx_getElem?_at _ _ toIdx (by omega), hs]
  · -- the current index is unaffected by the move
    refine ⟨Int.natCast_nonneg i, ?_⟩
    have e : ((i : Int)).toNat = i := rfl
    rw [e]
    by_cases c3 : i < fromIdx
    · have hlt : i < toIdx := by omega
      rw [insertIdx_getElem?_lt _ _ toIdx i hlt (by omega),
        List.getElem?_eraseIdx_of_lt _ _ _ c3]
    · have hgt : toIdx < i := by omega
      have hsplit : i = toIdx + (i - toIdx - 1) + 1 := by omega
      rw [hsplit, insertIdx_getElem?_shift _ _ toIdx (i - toIdx - 1) (by omega),
        List.getElem?_eraseIdx_of_ge _ _ _ (by omega)]

/-- Three distinct sessions for the C7 witness. -/
def ssC7 : List ChatSession := [demoSession 71, demoSession 72, demoSession 73]

/-- Claim C7 witness: moving session 0 to position 2 while the current index
is 1 keeps the same session current. -/
theorem C7_witness :
    0 ≤ (moveSession 0 2 ⟨ssC7, (1 : Int)⟩).currentSessionIndex ∧
    (moveSession 0 2 ⟨ssC7, (1 : Int)⟩).sessions[
      (moveSession 0 2 ⟨ssC7, (1 : Int)⟩).currentSessionIndex.toNat]? =
      ssC7[1]? :=
  C7_moveSession_preserves_current ssC7 0 2 1 (by decide) (by decide) (by decide)
